import Mathlib

/-!
Verification of the AdaNet objective tutorial notebook
(adanet/examples/tutorials/adanet_objective.ipynb).

The notebook defines two small plugin classes for the AdaNet framework:

* SimpleDNNBuilder (the notebook's _SimpleDNNBuilder): builds a feed-forward
  subnetwork of a configured depth, scores its complexity as the square root
  of the depth, names it, and produces mixture-weight train ops.
* SimpleDNNGenerator: at each boosting round proposes two candidate builders,
  one at the depth persisted by the previous ensemble's most recent
  subnetwork and one a layer deeper.

Tensor-graph construction is modelled symbolically: a tensor is a tree of
raw feature tensors, the to-float cast, and dense layers.
-/

/-- A tensor-expression tree. A dense node records its unit count, whether a
ReLU activation was applied, the initializer seed, and its input tensor. -/
inductive Tensor where
  | raw (id : Nat) : Tensor
  | toFloat (t : Tensor) : Tensor
  | dense (units : Nat) (relu : Bool) (seed : Option Int) (inp : Tensor) : Tensor
deriving DecidableEq

/-- An optimizer handle. The notebook threads the optimizer through as an
opaque object, so it is represented by an identifier. -/
structure Optimizer where
  id : Nat
deriving DecidableEq

/-- The notebook's _SimpleDNNBuilder: the fields stored by its constructor. -/
structure SimpleDNNBuilder where
  optimizer : Optimizer
  layer_size : Nat
  num_layers : Nat
  learn_mixture_weights : Bool
  seed : Option Int
deriving DecidableEq

/-- The adanet.Subnetwork record returned by build_subnetwork. The persisted
tensors dictionary holds the single key num_layers, modelled by its value. -/
structure Subnetwork where
  last_layer : Tensor
  logits : Tensor
  complexity : ℝ
  persisted_num_layers : Nat

/-- A weighted subnetwork of the previous ensemble, as read by the
generator; only the wrapped subnetwork is accessed. -/
structure WeightedSubnetwork where
  subnetwork : Subnetwork

/-- The previous ensemble handed to generate_candidates. -/
structure Ensemble where
  weighted_subnetworks : List WeightedSubnetwork

/-- The notebook's SimpleDNNGenerator: its stored seed together with the
arguments bound into its dnn_builder_fn partial application. -/
structure SimpleDNNGenerator where
  seed : Option Int
  optimizer : Optimizer
  layer_size : Nat
  learn_mixture_weights : Bool

/-- The generator's dnn_builder_fn: functools.partial of the builder
constructor over the generator's optimizer, layer size and mixture flag. -/
def SimpleDNNGenerator.dnn_builder_fn (g : SimpleDNNGenerator)
    (num_layers : Nat) (seed : Option Int) : SimpleDNNBuilder :=
  { optimizer := g.optimizer
    layer_size := g.layer_size
    num_layers := num_layers
    learn_mixture_weights := g.learn_mixture_weights
    seed := seed }

/-- Reading previous_ensemble.weighted_subnetworks[-1].subnetwork
.persisted_tensors[num_layers]; indexing an empty list fails, hence Option. -/
def lastPersistedNumLayers (e : Ensemble) : Option Nat :=
  (e.weighted_subnetworks.getLast?).map fun w => w.subnetwork.persisted_num_layers

/-- The notebook's SimpleDNNGenerator.generate_candidates. When a previous
ensemble is present the depth of its most recent subnetwork is read (a
fallible lookup); the local seed is the stored seed plus the iteration
number when a seed is stored; two builders are returned, at the read depth
and one deeper. -/
def SimpleDNNGenerator.generate_candidates (g : SimpleDNNGenerator)
    (previous_ensemble : Option Ensemble) (iteration_number : Nat) :
    Option (List SimpleDNNBuilder) :=
  let num_layers? : Option Nat :=
    match previous_ensemble with
    | none => some 0
    | some e => lastPersistedNumLayers e
  num_layers?.map fun num_layers =>
    let seed := g.seed.map fun s => s + (iteration_number : Int)
    [g.dnn_builder_fn num_layers seed, g.dnn_builder_fn (num_layers + 1) seed]

/-- generate_candidates as an explicit state transformer over the generator:
the method body assigns no field of self, so the resulting state is the
receiver unchanged. -/
def SimpleDNNGenerator.generateCandidatesCall (g : SimpleDNNGenerator)
    (previous_ensemble : Option Ensemble) (iteration_number : Nat) :
    Option (List SimpleDNNBuilder) × SimpleDNNGenerator :=
  (g.generate_candidates previous_ensemble iteration_number, g)

/-- The builder's measure of complexity: tf.sqrt of the float cast of the
stored number of layers. -/
noncomputable def SimpleDNNBuilder.measure_complexity
    (b : SimpleDNNBuilder) : ℝ :=
  Real.sqrt (b.num_layers : ℝ)

/-- measure_complexity as an explicit state transformer over the builder:
the method body assigns no field of self, so the resulting state is the
receiver unchanged. -/
noncomputable def SimpleDNNBuilder.measureComplexityCall
    (b : SimpleDNNBuilder) : ℝ × SimpleDNNBuilder :=
  (b.measure_complexity, b)

/-- The builder's name property. -/
def SimpleDNNBuilder.name (b : SimpleDNNBuilder) : String :=
  if b.num_layers = 0 then "linear"
  else toString b.num_layers ++ "_layer_dnn"

/-- A mixture-weight train op: either tf.no_op or the optimizer's minimize
step on a loss and a variable list. -/
inductive TrainOp (L V : Type) where
  | noOp : TrainOp L V
  | minimize (optimizer : Optimizer) (loss : L) (var_list : V) : TrainOp L V
deriving DecidableEq

/-- The builder's build_mixture_weights_train_op. -/
def SimpleDNNBuilder.build_mixture_weights_train_op {L V : Type}
    (b : SimpleDNNBuilder) (loss : L) (var_list : V) : TrainOp L V :=
  if !b.learn_mixture_weights then TrainOp.noOp
  else TrainOp.minimize b.optimizer loss var_list

/-- The dense-layer loop of build_subnetwork: starting from the input
tensor, stack the given number of ReLU dense layers of the configured size. -/
def denseStack (layer_size : Nat) (seed : Option Int) (inp : Tensor) :
    Nat → Tensor
  | 0 => inp
  | n + 1 => Tensor.dense layer_size true seed (denseStack layer_size seed inp n)

/-- The builder's build_subnetwork: cast the features to float, stack
num_layers hidden ReLU dense layers of layer_size, add a logits dense layer
without activation, and return the subnetwork record with the complexity
measure and the persisted layer count. -/
noncomputable def SimpleDNNBuilder.build_subnetwork (b : SimpleDNNBuilder)
    (features : Tensor) (logits_dimension : Nat) : Subnetwork :=
  let input_layer := Tensor.toFloat features
  let last_layer := denseStack b.layer_size b.seed input_layer b.num_layers
  let logits := Tensor.dense logits_dimension false b.seed last_layer
  { last_layer := last_layer
    logits := logits
    complexity := b.measure_complexity
    persisted_num_layers := b.num_layers }

/-- The unit counts of the maximal run of ReLU dense layers at the top of a
tensor tree, outermost first. -/
def hiddenUnitsList : Tensor → List Nat
  | Tensor.dense u true _ t => u :: hiddenUnitsList t
  | _ => []

/-- The tensor found below the maximal run of ReLU dense layers at the top
of a tensor tree. -/
def reluStackBase : Tensor → Tensor
  | Tensor.dense _ true _ t => reluStackBase t
  | t => t

/-- A sample subnetwork persisting a given layer count, for concrete runs. -/
def sampleSubnetwork (d : Nat) : Subnetwork :=
  { last_layer := Tensor.raw 0
    logits := Tensor.raw 1
    complexity := 0
    persisted_num_layers := d }

/-- A sample generator configured with seed 7. -/
def sampleGenerator : SimpleDNNGenerator :=
  { seed := some 7
    optimizer := { id := 0 }
    layer_size := 32
    learn_mixture_weights := false }

/-- A sample previous ensemble whose last subnetwork persisted depth 2. -/
def sampleEnsemble : Ensemble :=
  { weighted_subnetworks := [{ subnetwork := sampleSubnetwork 2 }] }

/-- C1: for every previous depth d and every round index, generate_candidates
on an ensemble whose most recently added subnetwork persisted depth d
returns exactly two candidate builders, one of depth d and one of depth
d + 1. -/
theorem generate_candidates_depths (g : SimpleDNNGenerator) (e : Ensemble)
    (iteration_number d : Nat)
    (h : lastPersistedNumLayers e = some d) :
    ∃ b0 b1 : SimpleDNNBuilder,
      g.generate_candidates (some e) iteration_number = some [b0, b1] ∧
      b0.num_layers = d ∧ b1.num_layers = d + 1 := by
  refine ⟨g.dnn_builder_fn d (g.seed.map fun s => s + (iteration_number : Int)),
    g.dnn_builder_fn (d + 1) (g.seed.map fun s => s + (iteration_number : Int)),
    ?_, rfl, rfl⟩
  simp [SimpleDNNGenerator.generate_candidates, h]

theorem generate_candidates_depths_witness :
    ∃ b0 b1 : SimpleDNNBuilder,
      sampleGenerator.generate_candidates (some sampleEnsemble) 3
        = some [b0, b1] ∧
      b0.num_layers = 2 ∧ b1.num_layers = 2 + 1 :=
  generate_candidates_depths sampleGenerator sampleEnsemble 3 2 rfl

/-- C2: for round 0, with no previous ensemble, the two returned candidate
builders have depths 0 and 1. -/
theorem generate_candidates_round_zero (g : SimpleDNNGenerator)
    (iteration_number : Nat) :
    ∃ b0 b1 : SimpleDNNBuilder,
      g.generate_candidates none iteration_number = some [b0, b1] ∧
      b0.num_layers = 0 ∧ b1.num_layers = 1 := by
  refine ⟨g.dnn_builder_fn 0 (g.seed.map fun s => s + (iteration_number : Int)),
    g.dnn_builder_fn 1 (g.seed.map fun s => s + (iteration_number : Int)),
    ?_, rfl, rfl⟩
  simp [SimpleDNNGenerator.generate_candidates]

/-- C7: generate_candidates is total on its specified domain: whenever the
previous ensemble is absent or has at least one weighted subnetwork, the
call returns a candidate list and no error. -/
theorem generate_candidates_total (g : SimpleDNNGenerator)
    (previous_ensemble : Option Ensemble) (iteration_number : Nat)
    (h : ∀ e, previous_ensemble = some e → e.weighted_subnetworks ≠ []) :
    ∃ cs, g.generate_candidates previous_ensemble iteration_number = some cs := by
  cases previous_ensemble with
  | none =>
      exact ⟨[g.dnn_builder_fn 0 (g.seed.map fun s => s + (iteration_number : Int)),
        g.dnn_builder_fn 1 (g.seed.map fun s => s + (iteration_number : Int))],
        by simp [SimpleDNNGenerator.generate_candidates]⟩
  | some e =>
      have hne : e.weighted_subnetworks ≠ [] := h e rfl
      rcases Option.isSome_iff_exists.mp
          ((List.getLast?_isSome).mpr hne) with ⟨w, hw⟩
      have hl : lastPersistedNumLayers e
          = some w.subnetwork.persisted_num_layers := by
        simp [lastPersistedNumLayers, hw]
      exact ⟨[g.dnn_builder_fn w.subnetwork.persisted_num_layers
          (g.seed.map fun s => s + (iteration_number : Int)),
        g.dnn_builder_fn (w.subnetwork.persisted_num_layers + 1)
          (g.seed.map fun s => s + (iteration_number : Int))],
        by simp [SimpleDNNGenerator.generate_candidates, hl]⟩

theorem generate_candidates_total_witness :
    ∃ cs, sampleGenerator.generate_candidates (some sampleEnsemble) 0
      = some cs :=
  generate_candidates_total sampleGenerator (some sampleEnsemble) 0
    (fun e he => by cases he; simp [sampleEnsemble])

/-- C10: whenever generate_candidates returns a candidate list, all returned
builders carry one common seed, which is none when the generator stores no
seed and the stored seed plus the iteration number otherwise; the
generator state after the call still stores the original seed. -/
theorem generate_candidates_seed (g : SimpleDNNGenerator)
    (previous_ensemble : Option Ensemble) (iteration_number : Nat)
    (cs : List SimpleDNNBuilder)
    (h : g.generate_candidates previous_ensemble iteration_number = some cs) :
    (∃ s, ∀ b ∈ cs, b.seed = s) ∧
    (g.seed = none → ∀ b ∈ cs, b.seed = none) ∧
    (∀ s0, g.seed = some s0 →
      ∀ b ∈ cs, b.seed = some (s0 + (iteration_number : Int))) ∧
    (g.generateCandidatesCall previous_ensemble iteration_number).2.seed
      = g.seed := by
  have hcs : ∃ nl : Nat, cs =
      [g.dnn_builder_fn nl (g.seed.map fun s => s + (iteration_number : Int)),
       g.dnn_builder_fn (nl + 1)
         (g.seed.map fun s => s + (iteration_number : Int))] := by
    cases previous_ensemble with
    | none =>
        unfold SimpleDNNGenerator.generate_candidates at h
        simp at h
        exact ⟨0, h.symm⟩
    | some e =>
        unfold SimpleDNNGenerator.generate_candidates at h
        cases hle : lastPersistedNumLayers e with
        | none => simp [hle] at h
        | some nl =>
            simp [hle] at h
            exact ⟨nl, h.symm⟩
  rcases hcs with ⟨nl, rfl⟩
  refine ⟨⟨g.seed.map fun s => s + (iteration_number : Int), ?_⟩, ?_, ?_, rfl⟩
  · intro b hb
    rcases List.mem_pair.mp hb with rfl | rfl <;> rfl
  · intro hs b hb
    rcases List.mem_pair.mp hb with rfl | rfl <;>
      simp [SimpleDNNGenerator.dnn_builder_fn, hs]
  · intro s0 hs b hb
    rcases List.mem_pair.mp hb with rfl | rfl <;>
      simp [SimpleDNNGenerator.dnn_builder_fn, hs]

theorem generate_candidates_seed_witness :
    (∃ s, ∀ b ∈ [sampleGenerator.dnn_builder_fn 2 (some 10),
                 sampleGenerator.dnn_builder_fn 3 (some 10)], b.seed = s) ∧
    (sampleGenerator.seed = none →
      ∀ b ∈ [sampleGenerator.dnn_builder_fn 2 (some 10),
             sampleGenerator.dnn_builder_fn 3 (some 10)], b.seed = none) ∧
    (∀ s0, sampleGenerator.seed = some s0 →
      ∀ b ∈ [sampleGenerator.dnn_builder_fn 2 (some 10),
             sampleGenerator.dnn_builder_fn 3 (some 10)],
        b.seed = some (s0 + (3 : Int))) ∧
    (sampleGenerator.generateCandidatesCall (some sampleEnsemble) 3).2.seed
      = sampleGenerator.seed :=
  generate_candidates_seed sampleGenerator (some sampleEnsemble) 3
    [sampleGenerator.dnn_builder_fn 2 (some 10),
     sampleGenerator.dnn_builder_fn 3 (some 10)] (by decide)

/-- A sample builder of a given depth, for concrete runs. -/
def sampleBuilder (d : Nat) : SimpleDNNBuilder :=
  { optimizer := { id := 0 }
    layer_size := 32
    num_layers := d
    learn_mixture_weights := true
    seed := some 7 }

/-- C3: the complexity measure of a builder with num_layers d is the square
root of d, so it is 0, 1 and 2 at depths 0, 1 and 4, and the call leaves
the builder unchanged. -/
theorem measure_complexity_spec (b : SimpleDNNBuilder) :
    b.measure_complexity = Real.sqrt (b.num_layers : ℝ) ∧
    (b.num_layers = 0 → b.measure_complexity = 0) ∧
    (b.num_layers = 1 → b.measure_complexity = 1) ∧
    (b.num_layers = 4 → b.measure_complexity = 2) ∧
    b.measureComplexityCall = (b.measure_complexity, b) := by
  refine ⟨rfl, ?_, ?_, ?_, rfl⟩
  · intro h; simp [SimpleDNNBuilder.measure_complexity, h]
  · intro h; simp [SimpleDNNBuilder.measure_complexity, h]
  · intro h
    unfold SimpleDNNBuilder.measure_complexity
    rw [h]
    have h4 : ((4 : Nat) : ℝ) = 2 * 2 := by norm_num
    rw [h4, Real.sqrt_mul_self (by norm_num : (0 : ℝ) ≤ 2)]

theorem measure_complexity_spec_witness :
    (sampleBuilder 4).measure_complexity = 2 :=
  (measure_complexity_spec (sampleBuilder 4)).2.2.2.1 rfl

/-- C4: the complexity measure is monotonically non-decreasing in the
number of layers. -/
theorem measure_complexity_monotone (b1 b2 : SimpleDNNBuilder)
    (h : b1.num_layers < b2.num_layers) :
    b1.measure_complexity ≤ b2.measure_complexity := by
  apply Real.sqrt_le_sqrt
  exact_mod_cast Nat.le_of_lt h

theorem measure_complexity_monotone_witness :
    (sampleBuilder 1).num_layers < (sampleBuilder 2).num_layers ∧
    (sampleBuilder 1).measure_complexity
      ≤ (sampleBuilder 2).measure_complexity :=
  ⟨by decide,
    measure_complexity_monotone (sampleBuilder 1) (sampleBuilder 2) (by decide)⟩

/-- C5: the name property is the string linear exactly when the builder has
zero layers, and for n positive layers it is the decimal of n followed by
the suffix underscore layer underscore dnn. -/
theorem name_spec (b : SimpleDNNBuilder) :
    (b.name = "linear" ↔ b.num_layers = 0) ∧
    (0 < b.num_layers →
      b.name = toString b.num_layers ++ "_layer_dnn") := by
  by_cases h : b.num_layers = 0
  · constructor
    · simp [SimpleDNNBuilder.name, h]
    · intro hpos; omega
  · have hne : toString b.num_layers ++ "_layer_dnn" ≠ "linear" := by
      intro heq
      have hl := congrArg String.length heq
      rw [String.length_append] at hl
      have h10 : ("_layer_dnn" : String).length = 10 := rfl
      have h6 : ("linear" : String).length = 6 := rfl
      rw [h10, h6] at hl
      omega
    constructor
    · simp only [SimpleDNNBuilder.name, if_neg h]
      exact ⟨fun heq => absurd heq hne, fun h0 => absurd h0 h⟩
    · intro _
      simp [SimpleDNNBuilder.name, h]

theorem name_spec_witness :
    (sampleBuilder 4).name
      = toString (sampleBuilder 4).num_layers ++ "_layer_dnn" :=
  (name_spec (sampleBuilder 4)).2 (by decide)

/-- C6: both policy calls are deterministic and stateless: calling
generate_candidates twice in a row from the same state yields the same
candidates and leaves the generator equal to its initial state, and
likewise for the complexity measure on a builder. -/
theorem policies_pure (g : SimpleDNNGenerator) (previous_ensemble : Option Ensemble)
    (iteration_number : Nat) (b : SimpleDNNBuilder) :
    (g.generateCandidatesCall previous_ensemble iteration_number).1
      = ((g.generateCandidatesCall previous_ensemble iteration_number).2.generateCandidatesCall
          previous_ensemble iteration_number).1 ∧
    (g.generateCandidatesCall previous_ensemble iteration_number).2 = g ∧
    b.measureComplexityCall.1
      = b.measureComplexityCall.2.measureComplexityCall.1 ∧
    b.measureComplexityCall.2 = b :=
  ⟨rfl, rfl, rfl, rfl⟩

theorem hiddenUnitsList_denseStack (ls : Nat) (sd : Option Int) (f : Tensor) :
    ∀ n, hiddenUnitsList (denseStack ls sd (Tensor.toFloat f) n)
      = List.replicate n ls
  | 0 => rfl
  | n + 1 => by
      simp [denseStack, hiddenUnitsList,
        hiddenUnitsList_denseStack ls sd f n, List.replicate_succ]

theorem reluStackBase_denseStack (ls : Nat) (sd : Option Int) (f : Tensor) :
    ∀ n, reluStackBase (denseStack ls sd (Tensor.toFloat f) n)
      = Tensor.toFloat f
  | 0 => rfl
  | n + 1 => by
      simp [denseStack, reluStackBase, reluStackBase_denseStack ls sd f n]

/-- C8: build_subnetwork stacks exactly num_layers hidden ReLU dense layers
of the configured layer size directly on the float cast of the features,
puts one further dense logits layer without activation on top, and persists
num_layers in the returned subnetwork. -/
theorem build_subnetwork_spec (b : SimpleDNNBuilder) (features : Tensor)
    (logits_dimension : Nat) :
    hiddenUnitsList (b.build_subnetwork features logits_dimension).last_layer
      = List.replicate b.num_layers b.layer_size ∧
    reluStackBase (b.build_subnetwork features logits_dimension).last_layer
      = Tensor.toFloat features ∧
    (b.build_subnetwork features logits_dimension).logits
      = Tensor.dense logits_dimension false b.seed
          (b.build_subnetwork features logits_dimension).last_layer ∧
    (b.build_subnetwork features logits_dimension).persisted_num_layers
      = b.num_layers := by
  refine ⟨?_, ?_, rfl, rfl⟩
  · exact hiddenUnitsList_denseStack b.layer_size b.seed features b.num_layers
  · exact reluStackBase_denseStack b.layer_size b.seed features b.num_layers

/-- C9: build_mixture_weights_train_op returns the no-op exactly when the
stored mixture flag is false, and the optimizer minimize step on the given
loss and variable list exactly when the flag is true. -/
theorem build_mixture_weights_train_op_spec {L V : Type}
    (b : SimpleDNNBuilder) (loss : L) (var_list : V) :
    (b.build_mixture_weights_train_op loss var_list = TrainOp.noOp
      ↔ b.learn_mixture_weights = false) ∧
    (b.build_mixture_weights_train_op loss var_list
        = TrainOp.minimize b.optimizer loss var_list
      ↔ b.learn_mixture_weights = true) := by
  cases hb : b.learn_mixture_weights <;>
    simp [SimpleDNNBuilder.build_mixture_weights_train_op, hb]
